import Mathlib

/-!
Shallow embedding of the timer state machine of `src/src-tauri/src/services/timer_state.rs`
(the TimerEngine of the tempus-ring Pomodoro application).

Modelling conventions:
* `Instant` is a wall-clock time in whole seconds, modelled as `Nat`; each operation takes
  the current instant `now` explicitly (the Rust code calls `Instant::now()` inside).
* `Duration` values are whole seconds (`Nat`).  `Instant::elapsed` is `now - instant`
  (Rust saturates at zero for a monotonic clock, as does `Nat` subtraction); the
  `Duration` subtraction `start_time.elapsed() - paused_duration` is likewise modelled
  with truncated `Nat` subtraction.
* `u32` arithmetic is modelled on `Nat` with an explicit wrap `% 2 ^ 32` wherever the Rust
  code can overflow: the cast `elapsed.as_secs() as u32`, the increment
  `completed_sessions += 1`, and the decrement `sessions_until_long_break -= 1`
  (which in Rust panics in debug builds and wraps in release builds; the wrap value
  is what the model computes, and the underflow condition is stated separately).
* `f64` progress is modelled as an exact rational (`ℚ`); the division `elapsed / duration`
  is exact here, the branch structure around it is that of the code.
* `Instant::now().elapsed().as_secs()` — the elapsed seconds of an instant captured just
  before — is 0 (sub-second real time truncated to whole seconds), so the session
  timestamps/ids built from it are modelled with 0.
* The `Arc<Mutex<_>>` wrapper is dropped: every Rust method locks the single state for its
  whole body, so the sequential model passes `TimerManagerState` explicitly; each method
  returns its Rust result together with the state it leaves behind (errors leave the
  state it was given).
-/

set_option autoImplicit false

namespace TempusRing

/-- Rust `enum TimerState` (timer_state.rs lines 5-13). -/
inductive TimerState where
  | Idle
  | Work
  | ShortBreak
  | LongBreak
  | Paused
deriving DecidableEq

/-- Rust `struct TimerConfig` (timer_state.rs lines 15-23); all counters are `u32` seconds. -/
structure TimerConfig where
  work_duration : Nat
  short_break_duration : Nat
  long_break_duration : Nat
  sessions_until_long_break : Nat
  auto_start_breaks : Bool
  auto_start_pomodoros : Bool
deriving DecidableEq

/-- Rust `impl Default for TimerConfig` (timer_state.rs lines 25-36). -/
def timer_config_default : TimerConfig where
  work_duration := 1500
  short_break_duration := 300
  long_break_duration := 900
  sessions_until_long_break := 4
  auto_start_breaks := false
  auto_start_pomodoros := false

/-- Rust `struct TimerSession` (timer_state.rs lines 38-45). -/
structure TimerSession where
  id : String
  start_time : Nat
  end_time : Option Nat
  session_type : TimerState
  completed : Bool
deriving DecidableEq

/-- Rust `struct TimerData` (timer_state.rs lines 47-55); `progress: f64` is modelled in `ℚ`. -/
structure TimerData where
  state : TimerState
  current_session : Option TimerSession
  remaining_time : Nat
  progress : ℚ
  completed_sessions : Nat
  sessions_until_long_break : Nat
deriving DecidableEq

/-- Rust `struct TimerManagerState` (timer_state.rs lines 61-70). -/
structure TimerManagerState where
  current_state : TimerState
  config : TimerConfig
  start_time : Option Nat
  pause_start : Option Nat
  paused_duration : Nat
  current_session : Option TimerSession
  completed_sessions : Nat
  sessions_until_long_break : Nat
deriving DecidableEq

/-- Rust `TimerManager::new` (timer_state.rs lines 73-86). -/
def timer_manager_new : TimerManagerState where
  current_state := TimerState.Idle
  config := timer_config_default
  start_time := none
  pause_start := none
  paused_duration := 0
  current_session := none
  completed_sessions := 0
  sessions_until_long_break := 4

/-- Truncation to `u32` (`as u32` casts and wrapping `u32` arithmetic). -/
def u32Wrap (n : Nat) : Nat := n % 4294967296

/-- The duration chosen for the current state by `get_timer_data_internal`
(timer_state.rs lines 243-248): note the catch-all arm maps both `Idle` and
`Paused` to 0.  `check_if_completed` (lines 287-292) selects with the same three
named arms, so it reuses this definition on `Work`/`ShortBreak`/`LongBreak`. -/
def phase_duration (s : TimerManagerState) : Nat :=
  match s.current_state with
  | TimerState.Work => s.config.work_duration
  | TimerState.ShortBreak => s.config.short_break_duration
  | TimerState.LongBreak => s.config.long_break_duration
  | _ => 0

/-- The `elapsed_secs` computation of `get_timer_data_internal`
(timer_state.rs lines 250-258): frozen at `paused_duration` while `Paused`,
otherwise `start_time.elapsed() - paused_duration`, then `as_secs() as u32`. -/
def state_elapsed_secs (now start_time : Nat) (s : TimerManagerState) : Nat :=
  u32Wrap (if s.current_state = TimerState.Paused then
    s.paused_duration
  else
    now - start_time - s.paused_duration)

/-- Rust `TimerManager::get_timer_data_internal` (timer_state.rs lines 241-280). -/
def get_timer_data_internal (now : Nat) (s : TimerManagerState) : TimerData :=
  let rp : Nat × ℚ :=
    match s.start_time with
    | some start_time =>
      let duration := phase_duration s
      let elapsed_secs := state_elapsed_secs now start_time s
      if duration ≤ elapsed_secs then
        (0, 1)
      else
        (duration - elapsed_secs, (elapsed_secs : ℚ) / (duration : ℚ))
    | none => (0, 0)
  { state := s.current_state
    current_session := s.current_session
    remaining_time := rp.1
    progress := rp.2
    completed_sessions := s.completed_sessions
    sessions_until_long_break := s.sessions_until_long_break }

def start_error_msg : String := "Cannot start timer in current state"

def pause_error_msg : String := "Cannot pause timer in current state"

/-- Rust `TimerManager::start_timer` (timer_state.rs lines 88-129).  The error arm leaves the
state untouched (Rust returns early before mutating). -/
def start_timer (now : Nat) (s : TimerManagerState) :
    Except String TimerData × TimerManagerState :=
  match s.current_state with
  | TimerState.Idle =>
    let s' := { s with
      current_state := TimerState.Work
      start_time := some now
      paused_duration := 0
      current_session := some
        { id := "work_" ++ toString 0
          start_time := 0
          end_time := none
          session_type := TimerState.Work
          completed := false } }
    (Except.ok (get_timer_data_internal now s'), s')
  | TimerState.Paused =>
    let paused_duration :=
      match s.pause_start with
      | some pause_start => s.paused_duration + (now - pause_start)
      | none => s.paused_duration
    let current_state :=
      match s.current_session with
      | some session => session.session_type
      | none => TimerState.Work
    let s' := { s with
      paused_duration := paused_duration
      pause_start := none
      current_state := current_state }
    (Except.ok (get_timer_data_internal now s'), s')
  | _ => (Except.error start_error_msg, s)

/-- Rust `TimerManager::pause_timer` (timer_state.rs lines 131-145). -/
def pause_timer (now : Nat) (s : TimerManagerState) :
    Except String TimerData × TimerManagerState :=
  match s.current_state with
  | TimerState.Work | TimerState.ShortBreak | TimerState.LongBreak =>
    let s' := { s with
      current_state := TimerState.Paused
      pause_start := some now }
    (Except.ok (get_timer_data_internal now s'), s')
  | _ => (Except.error pause_error_msg, s)

/-- Rust `TimerManager::reset_timer` (timer_state.rs lines 147-158): lifetime counters survive. -/
def reset_timer (now : Nat) (s : TimerManagerState) : TimerData × TimerManagerState :=
  let s' := { s with
    current_state := TimerState.Idle
    start_time := none
    pause_start := none
    paused_duration := 0
    current_session := none }
  (get_timer_data_internal now s', s')

/-- Rust `TimerManager::get_timer_state` (timer_state.rs lines 160-163). -/
def get_timer_state (now : Nat) (s : TimerManagerState) : TimerData :=
  get_timer_data_internal now s

/-- Rust `TimerManager::update_config` (timer_state.rs lines 165-170): the config is installed
verbatim and the countdown is set to the new cycle length. -/
def update_config (now : Nat) (config : TimerConfig) (s : TimerManagerState) :
    TimerData × TimerManagerState :=
  let s' := { s with
    config := config
    sessions_until_long_break := config.sessions_until_long_break }
  (get_timer_data_internal now s', s')

/-- Rust `TimerManager::get_config` (timer_state.rs lines 172-175). -/
def get_config (s : TimerManagerState) : TimerConfig :=
  s.config

/-- The session left by the marking step of `complete_session`
(timer_state.rs lines 181-183): completed, with an end timestamp
(`Instant::now().elapsed().as_secs()`, i.e. 0 whole seconds). -/
def session_after_mark (s : TimerManagerState) : Option TimerSession :=
  s.current_session.map fun session =>
    { session with completed := true, end_time := some 0 }

/-- The `completed_sessions` counter after the marking step of `complete_session`
(timer_state.rs lines 185-186): `+= 1` (wrapping `u32`) exactly when the marked
session is a Work session. -/
def completed_after_mark (s : TimerManagerState) : Nat :=
  match s.current_session with
  | some session =>
    if session.session_type = TimerState.Work then
      u32Wrap (s.completed_sessions + 1)
    else
      s.completed_sessions
  | none => s.completed_sessions

/-- The long-break countdown after the marking step of `complete_session`
(timer_state.rs line 187): `-= 1` exactly when the marked session is a Work
session.  The Rust `u32` decrement panics in debug builds when the countdown is 0;
the model computes the release-build wrap `(n + 2 ^ 32 - 1) % 2 ^ 32`. -/
def countdown_after_mark (s : TimerManagerState) : Nat :=
  match s.current_session with
  | some session =>
    if session.session_type = TimerState.Work then
      u32Wrap (s.sessions_until_long_break + 4294967295)
    else
      s.sessions_until_long_break
  | none => s.sessions_until_long_break

/-- The Rust decrement `sessions_until_long_break -= 1` in `complete_session`
underflows exactly when a Work-typed session is current and the countdown is 0. -/
def complete_dec_safe (s : TimerManagerState) : Bool :=
  match s.current_session with
  | some session =>
    if session.session_type = TimerState.Work then
      decide (0 < s.sessions_until_long_break)
    else
      true
  | none => true

/-- The `next_state` selection of `complete_session` (timer_state.rs lines 192-203),
paired with the countdown it leaves behind (reset to the configured cycle length
exactly on the `Work`-with-countdown-0 arm). -/
def complete_transition (current_state : TimerState) (config : TimerConfig)
    (countdown : Nat) : TimerState × Nat :=
  match current_state with
  | TimerState.Work =>
    if countdown = 0 then
      (TimerState.LongBreak, config.sessions_until_long_break)
    else
      (TimerState.ShortBreak, countdown)
  | TimerState.ShortBreak => (TimerState.Work, countdown)
  | TimerState.LongBreak => (TimerState.Work, countdown)
  | _ => (TimerState.Idle, countdown)

/-- The session-id prefix chosen in the auto-start branch of `complete_session`
(timer_state.rs lines 213-222). -/
def next_state_label (st : TimerState) : String :=
  match st with
  | TimerState.Work => "work"
  | TimerState.ShortBreak => "short_break"
  | TimerState.LongBreak => "long_break"
  | _ => "unknown"

/-- Rust `TimerManager::complete_session` (timer_state.rs lines 177-239). -/
def complete_session (now : Nat) (s : TimerManagerState) :
    TimerData × TimerManagerState :=
  let s1 := { s with
    current_session := session_after_mark s
    completed_sessions := completed_after_mark s
    sessions_until_long_break := countdown_after_mark s }
  let next := complete_transition s1.current_state s1.config s1.sessions_until_long_break
  let next_state := next.1
  let s2 := { s1 with sessions_until_long_break := next.2 }
  if s2.config.auto_start_breaks = true ∨
      (next_state = TimerState.Work ∧ s2.config.auto_start_pomodoros = true) then
    let s3 := { s2 with
      current_state := next_state
      start_time := some now
      paused_duration := 0
      current_session := some
        { id := next_state_label next_state ++ "_" ++ toString 0
          start_time := 0
          end_time := none
          session_type := next_state
          completed := false } }
    (get_timer_data_internal now s3, s3)
  else
    let s3 := { s2 with
      current_state := TimerState.Idle
      start_time := none
      current_session := none }
    (get_timer_data_internal now s3, s3)

/-- Rust `TimerManager::check_if_completed` (timer_state.rs lines 282-306).  The completing
branch drops the lock and re-enters `complete_session`; in the sequential model this
is a direct call at the same instant. -/
def check_if_completed (now : Nat) (s : TimerManagerState) :
    Option TimerData × TimerManagerState :=
  match s.start_time with
  | some start_time =>
    if s.current_state = TimerState.Paused then
      (none, s)
    else
      match s.current_state with
      | TimerState.Work | TimerState.ShortBreak | TimerState.LongBreak =>
        let duration := phase_duration s
        let elapsed_secs := u32Wrap (now - start_time - s.paused_duration)
        if duration ≤ elapsed_secs then
          let r := complete_session now s
          (some r.1, r.2)
        else
          (none, s)
      | _ => (none, s)
  | none => (none, s)

/-- One call of the public API, tagged with the instant at which it is made.
`query` is `get_timer_state` / `get_config` (no mutation). -/
inductive TimerOp where
  | opStart (now : Nat)
  | opPause (now : Nat)
  | opReset (now : Nat)
  | opComplete (now : Nat)
  | opCheck (now : Nat)
  | opSetConfig (now : Nat) (config : TimerConfig)
  | opQuery (now : Nat)
deriving DecidableEq

/-- The state left behind by one API call (failed `start`/`pause` calls leave the
state unchanged, as in the source). -/
def applyOp (s : TimerManagerState) : TimerOp → TimerManagerState
  | TimerOp.opStart now => (start_timer now s).2
  | TimerOp.opPause now => (pause_timer now s).2
  | TimerOp.opReset now => (reset_timer now s).2
  | TimerOp.opComplete now => (complete_session now s).2
  | TimerOp.opCheck now => (check_if_completed now s).2
  | TimerOp.opSetConfig now config => (update_config now config s).2
  | TimerOp.opQuery _ => s

/-- Run a sequence of API calls. -/
def runOps (s : TimerManagerState) : List TimerOp → TimerManagerState
  | [] => s
  | op :: ops => runOps (applyOp s op) ops

/-- The invariant set of the spec (section 3): a session is present exactly outside
`Idle`, a pause instant is present exactly while `Paused`, and a phase start instant
is present exactly outside `Idle`. -/
def timer_invariants (s : TimerManagerState) : Prop :=
  (s.current_session.isSome = true ↔ s.current_state ≠ TimerState.Idle)
  ∧ (s.pause_start.isSome = true ↔ s.current_state = TimerState.Paused)
  ∧ (s.start_time.isSome = true ↔ s.current_state ≠ TimerState.Idle)

instance decidableTimerInvariants (s : TimerManagerState) : Decidable (timer_invariants s) := by
  unfold timer_invariants
  infer_instance

/-- Auxiliary strengthening: a stored session is typed `Work`/`ShortBreak`/`LongBreak`
(the data model of the spec: `phase_type` is never `Idle`/`Paused`). -/
def session_type_ok : Option TimerSession → Bool
  | none => true
  | some session =>
    decide (session.session_type ≠ TimerState.Idle ∧ session.session_type ≠ TimerState.Paused)

/-- The inductive invariant actually preserved step by step. -/
def timer_invariants_full (s : TimerManagerState) : Prop :=
  timer_invariants s ∧ session_type_ok s.current_session = true

/-- The calls under which the invariants are in fact preserved: everything except
`complete_session` invoked while `Paused`, or while `Idle` with `auto_start_breaks`
set (those two calls break the invariant set, see the counterexample). -/
def good_complete (s : TimerManagerState) : TimerOp → Bool
  | TimerOp.opComplete _ =>
    decide (s.current_state ≠ TimerState.Paused ∧
      ¬(s.current_state = TimerState.Idle ∧ s.config.auto_start_breaks = true))
  | _ => true

/-- A call sequence avoiding the invariant-breaking `complete_session` calls,
judged against the state each call actually sees. -/
def good_trace (s : TimerManagerState) : List TimerOp → Bool
  | [] => true
  | op :: ops => good_complete s op && good_trace (applyOp s op) ops

theorem start_timer_preserves (now : Nat) (s : TimerManagerState)
    (hInv : timer_invariants_full s) :
    timer_invariants_full (start_timer now s).2 := by
  obtain ⟨⟨h1, h2, h3⟩, h4⟩ := hInv
  obtain ⟨cs, cfg, st, ps, pd, sess, comp, sulb⟩ := s
  cases cs with
  | Idle =>
    cases sess with
    | some a => simp [timer_invariants] at h1
    | none =>
      cases ps with
      | some p => simp at h2
      | none =>
        simp [start_timer, timer_invariants_full, timer_invariants, session_type_ok]
  | Paused =>
    cases sess with
    | none => simp at h1
    | some a =>
      cases st with
      | none => simp at h3
      | some t =>
        have h4' : a.session_type ≠ TimerState.Idle ∧ a.session_type ≠ TimerState.Paused := by
          simpa [session_type_ok] using h4
        simp [start_timer, timer_invariants_full, timer_invariants, session_type_ok,
          h4'.1, h4'.2]
  | Work => exact ⟨⟨h1, h2, h3⟩, h4⟩
  | ShortBreak => exact ⟨⟨h1, h2, h3⟩, h4⟩
  | LongBreak => exact ⟨⟨h1, h2, h3⟩, h4⟩

theorem pause_timer_preserves (now : Nat) (s : TimerManagerState)
    (hInv : timer_invariants_full s) :
    timer_invariants_full (pause_timer now s).2 := by
  obtain ⟨⟨h1, h2, h3⟩, h4⟩ := hInv
  obtain ⟨cs, cfg, st, ps, pd, sess, comp, sulb⟩ := s
  cases cs with
  | Idle => exact ⟨⟨h1, h2, h3⟩, h4⟩
  | Paused => exact ⟨⟨h1, h2, h3⟩, h4⟩
  | Work =>
    simp_all [pause_timer, timer_invariants_full, timer_invariants, session_type_ok]
  | ShortBreak =>
    simp_all [pause_timer, timer_invariants_full, timer_invariants, session_type_ok]
  | LongBreak =>
    simp_all [pause_timer, timer_invariants_full, timer_invariants, session_type_ok]

theorem reset_timer_preserves (now : Nat) (s : TimerManagerState)
    (_hInv : timer_invariants_full s) :
    timer_invariants_full (reset_timer now s).2 := by
  simp [reset_timer, timer_invariants_full, timer_invariants, session_type_ok]

theorem update_config_preserves (now : Nat) (config : TimerConfig) (s : TimerManagerState)
    (hInv : timer_invariants_full s) :
    timer_invariants_full (update_config now config s).2 := by
  obtain ⟨⟨h1, h2, h3⟩, h4⟩ := hInv
  exact ⟨⟨h1, h2, h3⟩, h4⟩

theorem complete_session_preserves (now : Nat) (s : TimerManagerState)
    (hInv : timer_invariants_full s)
    (hP : s.current_state ≠ TimerState.Paused)
    (hI : ¬(s.current_state = TimerState.Idle ∧ s.config.auto_start_breaks = true)) :
    timer_invariants_full (complete_session now s).2 := by
  obtain ⟨⟨h1, h2, h3⟩, h4⟩ := hInv
  obtain ⟨cs, cfg, st, ps, pd, sess, comp, sulb⟩ := s
  cases cs with
  | Paused => exact absurd rfl hP
  | Idle =>
    cases sess with
    | some a => simp [timer_invariants] at h1
    | none =>
      cases ps with
      | some p => simp at h2
      | none =>
        have hb : cfg.auto_start_breaks = false := by
          by_contra hb
          exact hI ⟨rfl, by simpa using hb⟩
        simp [complete_session, session_after_mark, completed_after_mark,
          countdown_after_mark, complete_transition, hb,
          timer_invariants_full, timer_invariants, session_type_ok]
  | Work =>
    cases sess with
    | none => simp at h1
    | some a =>
      cases ps with
      | some p => simp at h2
      | none =>
        by_cases hc : countdown_after_mark
            ⟨TimerState.Work, cfg, st, none, pd, some a, comp, sulb⟩ = 0 <;>
          by_cases hb : cfg.auto_start_breaks = true <;>
            simp [complete_session, session_after_mark, complete_transition, hc, hb,
              timer_invariants_full, timer_invariants, session_type_ok]
  | ShortBreak =>
    cases sess with
    | none => simp at h1
    | some a =>
      cases ps with
      | some p => simp at h2
      | none =>
        by_cases hb : cfg.auto_start_breaks = true <;>
          by_cases hp : cfg.auto_start_pomodoros = true <;>
            simp [complete_session, session_after_mark, complete_transition, hb, hp,
              timer_invariants_full, timer_invariants, session_type_ok]
  | LongBreak =>
    cases sess with
    | none => simp at h1
    | some a =>
      cases ps with
      | some p => simp at h2
      | none =>
        by_cases hb : cfg.auto_start_breaks = true <;>
          by_cases hp : cfg.auto_start_pomodoros = true <;>
            simp [complete_session, session_after_mark, complete_transition, hb, hp,
              timer_invariants_full, timer_invariants, session_type_ok]

theorem check_if_completed_preserves (now : Nat) (s : TimerManagerState)
    (hInv : timer_invariants_full s) :
    timer_invariants_full (check_if_completed now s).2 := by
  have hcopy := hInv
  obtain ⟨⟨h1, h2, h3⟩, h4⟩ := hInv
  rcases hst : s.start_time with _ | t
  · simpa [check_if_completed, hst] using hcopy
  · by_cases hps : s.current_state = TimerState.Paused
    · simpa [check_if_completed, hst, hps] using hcopy
    · rcases hcs : s.current_state with _ | _ | _ | _ | _
      · simpa [check_if_completed, hst, hps, hcs] using hcopy
      · by_cases hd : phase_duration s ≤ u32Wrap (now - t - s.paused_duration)
        · have := complete_session_preserves now s hcopy hps (by simp [hcs])
          simpa [check_if_completed, hst, hps, hcs, hd] using this
        · simpa [check_if_completed, hst, hps, hcs, hd] using hcopy
      · by_cases hd : phase_duration s ≤ u32Wrap (now - t - s.paused_duration)
        · have := complete_session_preserves now s hcopy hps (by simp [hcs])
          simpa [check_if_completed, hst, hps, hcs, hd] using this
        · simpa [check_if_completed, hst, hps, hcs, hd] using hcopy
      · by_cases hd : phase_duration s ≤ u32Wrap (now - t - s.paused_duration)
        · have := complete_session_preserves now s hcopy hps (by simp [hcs])
          simpa [check_if_completed, hst, hps, hcs, hd] using this
        · simpa [check_if_completed, hst, hps, hcs, hd] using hcopy
      · exact absurd hcs hps

theorem applyOp_preserves (s : TimerManagerState) (op : TimerOp)
    (hInv : timer_invariants_full s) (hGood : good_complete s op = true) :
    timer_invariants_full (applyOp s op) := by
  cases op with
  | opStart now => exact start_timer_preserves now s hInv
  | opPause now => exact pause_timer_preserves now s hInv
  | opReset now => exact reset_timer_preserves now s hInv
  | opComplete now =>
    have hg : s.current_state ≠ TimerState.Paused ∧
        (¬s.current_state = TimerState.Idle ∨ s.config.auto_start_breaks = false) := by
      simpa [good_complete] using hGood
    refine complete_session_preserves now s hInv hg.1 ?_
    rintro ⟨hidle, hb⟩
    rcases hg.2 with h | h
    · exact h hidle
    · rw [hb] at h
      exact absurd h (by simp)
  | opCheck now => exact check_if_completed_preserves now s hInv
  | opSetConfig now config => exact update_config_preserves now config s hInv
  | opQuery now => exact hInv

theorem runOps_preserves (ops : List TimerOp) :
    ∀ s : TimerManagerState, timer_invariants_full s → good_trace s ops = true →
      timer_invariants_full (runOps s ops) := by
  induction ops with
  | nil => intro s h _; exact h
  | cons op rest ih =>
    intro s h hg
    have hg' : good_complete s op = true ∧ good_trace (applyOp s op) rest = true := by
      simpa [good_trace, Bool.and_eq_true] using hg
    exact ih (applyOp s op) (applyOp_preserves s op h hg'.1) hg'.2

theorem timer_manager_new_invariants : timer_invariants_full timer_manager_new := by
  constructor
  · refine ⟨?_, ?_, ?_⟩ <;> simp [timer_manager_new]
  · simp [timer_manager_new, session_type_ok]

/-- Whether a `Result` carries a success value. -/
def result_is_ok (r : Except String TimerData) : Bool :=
  match r with
  | Except.ok _ => true
  | Except.error _ => false

/-- Claim C1 (code demonstration): the claimed formula fails for snapshots taken while
`Paused`.  After `start` at instant 0 and `pause` at instant 0 the state is `Paused`
with `work_duration = 1500` and `accumulated_pause_duration = 0`, so the claim requires
`remaining_time = 1500` and `progress = 0.0`; but the duration match of
`get_timer_data_internal` sends `Paused` through its catch-all arm to `D = 0`, so the
query at instant 10 returns `remaining_time = 0` and `progress = 1.0`. -/
theorem c1_paused_snapshot_degenerate :
    (runOps timer_manager_new [TimerOp.opStart 0, TimerOp.opPause 0]).current_state =
      TimerState.Paused
    ∧ (runOps timer_manager_new
        [TimerOp.opStart 0, TimerOp.opPause 0]).config.work_duration = 1500
    ∧ (runOps timer_manager_new [TimerOp.opStart 0, TimerOp.opPause 0]).paused_duration = 0
    ∧ phase_duration (runOps timer_manager_new [TimerOp.opStart 0, TimerOp.opPause 0]) = 0
    ∧ (get_timer_data_internal 10
        (runOps timer_manager_new [TimerOp.opStart 0, TimerOp.opPause 0])).remaining_time = 0
    ∧ (get_timer_data_internal 10
        (runOps timer_manager_new [TimerOp.opStart 0, TimerOp.opPause 0])).progress = 1 := by
  decide

/-- Claim C2 (code demonstration): the `u32` decrement of `sessions_until_long_break`
in `complete_session` underflows on a valid call sequence.  Three start/complete
rounds bring the countdown to 1; completing the fourth Work session while `Paused`
decrements it to 0 but skips the reset (the reset arm matches `current_state == Work`,
not the session type); the next `complete_session` on a fresh Work session then
executes `0 -= 1`, which panics in debug builds and wraps to `u32::MAX` in release
builds (the model computes the wrap). -/
theorem c2_countdown_underflow :
    (runOps timer_manager_new
      [TimerOp.opStart 0, TimerOp.opComplete 1, TimerOp.opStart 2, TimerOp.opComplete 3,
       TimerOp.opStart 4, TimerOp.opComplete 5, TimerOp.opStart 6, TimerOp.opPause 7,
       TimerOp.opComplete 8, TimerOp.opStart 9]).sessions_until_long_break = 0
    ∧ (runOps timer_manager_new
        [TimerOp.opStart 0, TimerOp.opComplete 1, TimerOp.opStart 2, TimerOp.opComplete 3,
         TimerOp.opStart 4, TimerOp.opComplete 5, TimerOp.opStart 6, TimerOp.opPause 7,
         TimerOp.opComplete 8, TimerOp.opStart 9]).current_session.map
          TimerSession.session_type = some TimerState.Work
    ∧ complete_dec_safe (runOps timer_manager_new
        [TimerOp.opStart 0, TimerOp.opComplete 1, TimerOp.opStart 2, TimerOp.opComplete 3,
         TimerOp.opStart 4, TimerOp.opComplete 5, TimerOp.opStart 6, TimerOp.opPause 7,
         TimerOp.opComplete 8, TimerOp.opStart 9]) = false
    ∧ (runOps timer_manager_new
        [TimerOp.opStart 0, TimerOp.opComplete 1, TimerOp.opStart 2, TimerOp.opComplete 3,
         TimerOp.opStart 4, TimerOp.opComplete 5, TimerOp.opStart 6, TimerOp.opPause 7,
         TimerOp.opComplete 8, TimerOp.opStart 9,
         TimerOp.opComplete 10]).sessions_until_long_break = 4294967295 := by
  decide

/-- Claim C3 (counterexample to the claim as stated): the state reached from the initial
state by `start`, `pause`, `complete_session` — all of them legal calls — violates the
invariant set: the phase is back to `Idle` but `pause_start_instant` is still present,
because `complete_session` never clears `pause_start`. -/
theorem c3_counterexample :
    ¬ timer_invariants (runOps timer_manager_new
      [TimerOp.opStart 0, TimerOp.opPause 1, TimerOp.opComplete 2]) := by
  decide

/-- Claim C3 (amended): the three invariants hold in every state reachable from the
initial state by call sequences that never invoke `complete_session` while the phase
is `Paused`, nor while it is `Idle` with `auto_start_breaks` set; every other call —
including `check_if_completed` in every state — preserves them. -/
theorem c3_invariants_reachable (ops : List TimerOp)
    (h : good_trace timer_manager_new ops = true) :
    timer_invariants (runOps timer_manager_new ops) :=
  (runOps_preserves ops timer_manager_new timer_manager_new_invariants h).1

/-- Witness for C3: a representative legal trace through every phase satisfies the side
condition, and the reached state satisfies the invariants. -/
theorem c3_invariants_reachable_witness :
    good_trace timer_manager_new
      [TimerOp.opStart 0, TimerOp.opPause 3, TimerOp.opStart 5, TimerOp.opComplete 9,
       TimerOp.opStart 12, TimerOp.opCheck 2000] = true
    ∧ timer_invariants (runOps timer_manager_new
        [TimerOp.opStart 0, TimerOp.opPause 3, TimerOp.opStart 5, TimerOp.opComplete 9,
         TimerOp.opStart 12, TimerOp.opCheck 2000]) :=
  ⟨by decide,
   c3_invariants_reachable
     [TimerOp.opStart 0, TimerOp.opPause 3, TimerOp.opStart 5, TimerOp.opComplete 9,
      TimerOp.opStart 12, TimerOp.opCheck 2000] (by decide)⟩

/-- Claim C4 (counterexample to the claim as stated): with `auto_start_breaks = true`
(installed by `update_config`, a legal call) a `complete_session` from `Idle` does have
session effects — the auto-start branch runs with `next = Idle`, creating a fresh
session (typed `Idle`) and setting `phase_start_instant`. -/
theorem c4_counterexample :
    (applyOp timer_manager_new
      (TimerOp.opSetConfig 0 { timer_config_default with auto_start_breaks := true })).current_state =
      TimerState.Idle
    ∧ (applyOp (applyOp timer_manager_new
        (TimerOp.opSetConfig 0 { timer_config_default with auto_start_breaks := true }))
        (TimerOp.opComplete 1)).current_session.isSome = true
    ∧ (applyOp (applyOp timer_manager_new
        (TimerOp.opSetConfig 0 { timer_config_default with auto_start_breaks := true }))
        (TimerOp.opComplete 1)).start_time = some 1 := by
  decide

/-- Claim C4 (amended): `complete_session` while `Idle` (no current session) keeps the
phase `Idle` and both counters unchanged; with `auto_start_breaks` unset it has no
session effects (no session, no start instant); with `auto_start_breaks` set the
auto-start branch runs even for `next = Idle` and creates a fresh not-completed
session with `session_type = Idle` and a start instant, zeroing the accumulated
pause duration. -/
theorem c4_complete_on_idle (now : Nat) (s : TimerManagerState)
    (h1 : s.current_state = TimerState.Idle)
    (h2 : s.current_session = none) :
    (complete_session now s).2.completed_sessions = s.completed_sessions
    ∧ (complete_session now s).2.sessions_until_long_break = s.sessions_until_long_break
    ∧ (complete_session now s).2.current_state = TimerState.Idle
    ∧ (s.config.auto_start_breaks = false →
        (complete_session now s).2.current_session = none
        ∧ (complete_session now s).2.start_time = none)
    ∧ (s.config.auto_start_breaks = true →
        (∃ sess, (complete_session now s).2.current_session = some sess
          ∧ sess.session_type = TimerState.Idle
          ∧ sess.completed = false
          ∧ (complete_session now s).2.start_time = some now)
        ∧ (complete_session now s).2.paused_duration = 0) := by
  by_cases hb : s.config.auto_start_breaks = true <;>
    simp [complete_session, session_after_mark, completed_after_mark,
      countdown_after_mark, complete_transition, h1, h2, hb]

/-- Witness for C4: the amended statement applied to the initial state with
`auto_start_breaks` enabled. -/
theorem c4_complete_on_idle_witness :
    (complete_session 7 { timer_manager_new with
        config := { timer_config_default with auto_start_breaks := true } }).2.completed_sessions =
      ({ timer_manager_new with
        config := { timer_config_default with auto_start_breaks := true } } :
        TimerManagerState).completed_sessions
    ∧ (complete_session 7 { timer_manager_new with
        config := { timer_config_default with auto_start_breaks := true } }).2.sessions_until_long_break =
      ({ timer_manager_new with
        config := { timer_config_default with auto_start_breaks := true } } :
        TimerManagerState).sessions_until_long_break
    ∧ (complete_session 7 { timer_manager_new with
        config := { timer_config_default with auto_start_breaks := true } }).2.current_state =
      TimerState.Idle
    ∧ (({ timer_manager_new with
        config := { timer_config_default with auto_start_breaks := true } } :
        TimerManagerState).config.auto_start_breaks = false →
        (complete_session 7 { timer_manager_new with
          config := { timer_config_default with auto_start_breaks := true } }).2.current_session = none
        ∧ (complete_session 7 { timer_manager_new with
          config := { timer_config_default with auto_start_breaks := true } }).2.start_time = none)
    ∧ (({ timer_manager_new with
        config := { timer_config_default with auto_start_breaks := true } } :
        TimerManagerState).config.auto_start_breaks = true →
        (∃ sess, (complete_session 7 { timer_manager_new with
            config := { timer_config_default with auto_start_breaks := true } }).2.current_session =
            some sess
          ∧ sess.session_type = TimerState.Idle
          ∧ sess.completed = false
          ∧ (complete_session 7 { timer_manager_new with
            config := { timer_config_default with auto_start_breaks := true } }).2.start_time =
            some 7)
        ∧ (complete_session 7 { timer_manager_new with
            config := { timer_config_default with auto_start_breaks := true } }).2.paused_duration =
            0) :=
  c4_complete_on_idle 7
    { timer_manager_new with
      config := { timer_config_default with auto_start_breaks := true } } rfl rfl

/-- Claim C5: completing a Work session (from phase `Work`, with the countdown positive —
it is a `u32` that must not underflow — and the `u32` counter not at its maximum)
increments the lifetime completed-work counter by 1 and decrements the countdown by 1;
the next phase is `LongBreak` with the countdown reset to the configured cycle length
exactly when the decremented countdown reached zero, otherwise `ShortBreak` with the
decremented countdown kept; from `ShortBreak`/`LongBreak` the next phase is `Work`.
With the default config and auto-start disabled, four start/complete rounds go to
`Idle` after every completion and end with lifetime counter 4 and countdown reset
to 4. -/
theorem c5_complete_work_session (now : Nat) (s : TimerManagerState) (sess : TimerSession)
    (h1 : s.current_state = TimerState.Work)
    (h2 : s.current_session = some sess)
    (h3 : sess.session_type = TimerState.Work)
    (h4 : 0 < s.sessions_until_long_break)
    (h5 : s.sessions_until_long_break < 4294967296)
    (h6 : s.completed_sessions + 1 < 4294967296) :
    (complete_session now s).2.completed_sessions = s.completed_sessions + 1
    ∧ (complete_session now s).2.sessions_until_long_break =
        (if s.sessions_until_long_break - 1 = 0 then s.config.sessions_until_long_break
         else s.sessions_until_long_break - 1)
    ∧ (complete_transition TimerState.Work s.config (s.sessions_until_long_break - 1)).1 =
        (if s.sessions_until_long_break - 1 = 0 then TimerState.LongBreak
         else TimerState.ShortBreak)
    ∧ (∀ (config : TimerConfig) (countdown : Nat),
        (complete_transition TimerState.ShortBreak config countdown).1 = TimerState.Work
        ∧ (complete_transition TimerState.LongBreak config countdown).1 = TimerState.Work)
    ∧ ((runOps timer_manager_new
          [TimerOp.opStart 0, TimerOp.opComplete 1]).current_state = TimerState.Idle
       ∧ (runOps timer_manager_new
          [TimerOp.opStart 0, TimerOp.opComplete 1, TimerOp.opStart 2,
           TimerOp.opComplete 3]).current_state = TimerState.Idle
       ∧ (runOps timer_manager_new
          [TimerOp.opStart 0, TimerOp.opComplete 1, TimerOp.opStart 2, TimerOp.opComplete 3,
           TimerOp.opStart 4, TimerOp.opComplete 5]).current_state = TimerState.Idle
       ∧ (runOps timer_manager_new
          [TimerOp.opStart 0, TimerOp.opComplete 1, TimerOp.opStart 2, TimerOp.opComplete 3,
           TimerOp.opStart 4, TimerOp.opComplete 5, TimerOp.opStart 6,
           TimerOp.opComplete 7]).current_state = TimerState.Idle
       ∧ (runOps timer_manager_new
          [TimerOp.opStart 0, TimerOp.opComplete 1, TimerOp.opStart 2, TimerOp.opComplete 3,
           TimerOp.opStart 4, TimerOp.opComplete 5, TimerOp.opStart 6,
           TimerOp.opComplete 7]).completed_sessions = 4
       ∧ (runOps timer_manager_new
          [TimerOp.opStart 0, TimerOp.opComplete 1, TimerOp.opStart 2, TimerOp.opComplete 3,
           TimerOp.opStart 4, TimerOp.opComplete 5, TimerOp.opStart 6,
           TimerOp.opComplete 7]).sessions_until_long_break = 4) := by
  have hwrap1 : u32Wrap (s.sessions_until_long_break + 4294967295) =
      s.sessions_until_long_break - 1 := by
    unfold u32Wrap
    omega
  have hwrap2 : u32Wrap (s.completed_sessions + 1) = s.completed_sessions + 1 := by
    unfold u32Wrap
    omega
  have hcount : countdown_after_mark s = s.sessions_until_long_break - 1 := by
    simp [countdown_after_mark, h2, h3, hwrap1]
  have hcomp : completed_after_mark s = s.completed_sessions + 1 := by
    simp [completed_after_mark, h2, h3, hwrap2]
  refine ⟨?_, ?_, ?_, ?_, by decide⟩
  · by_cases h0 : s.sessions_until_long_break - 1 = 0 <;>
      by_cases hb : s.config.auto_start_breaks = true <;>
        simp [complete_session, complete_transition, hcount, hcomp, h1, h0, hb]
  · by_cases h0 : s.sessions_until_long_break - 1 = 0 <;>
      by_cases hb : s.config.auto_start_breaks = true <;>
        simp [complete_session, complete_transition, hcount, hcomp, h1, h0, hb]
  · by_cases h0 : s.sessions_until_long_break - 1 = 0 <;>
      simp [complete_transition, h0]
  · intro config countdown
    exact ⟨rfl, rfl⟩

/-- Witness for C5: completing the fresh Work session started from the initial state. -/
theorem c5_complete_work_session_witness :
    (complete_session 30 (runOps timer_manager_new [TimerOp.opStart 0])).2.completed_sessions =
      (runOps timer_manager_new [TimerOp.opStart 0]).completed_sessions + 1
    ∧ (complete_session 30 (runOps timer_manager_new
        [TimerOp.opStart 0])).2.sessions_until_long_break =
      (if (runOps timer_manager_new [TimerOp.opStart 0]).sessions_until_long_break - 1 = 0 then
        (runOps timer_manager_new [TimerOp.opStart 0]).config.sessions_until_long_break
       else (runOps timer_manager_new [TimerOp.opStart 0]).sessions_until_long_break - 1) :=
  have h := c5_complete_work_session 30 (runOps timer_manager_new [TimerOp.opStart 0])
    { id := "work_" ++ toString 0, start_time := 0, end_time := none,
      session_type := TimerState.Work, completed := false }
    (by decide) (by decide) rfl (by decide) (by decide) (by decide)
  ⟨h.1, h.2.1⟩

/-- Claim C6: after `complete_session` determines the next phase, the auto-transition
gate is exactly `auto_start_breaks OR (next = Work AND auto_start_pomodoros)`: when it
holds the engine enters `next` as a freshly started phase — a new not-completed session
typed `next` with no end timestamp, a fresh start instant, zero accumulated pause —
and otherwise it goes to `Idle` with the session cleared and the start instant dropped.
The hypothesis keeps the Rust `u32` decrement of the marking step underflow-free, the
domain on which the Rust code reaches this branch at all. -/
theorem c6_auto_transition (now : Nat) (s : TimerManagerState)
    (_hsafe : complete_dec_safe s = true) :
    ((s.config.auto_start_breaks = true ∨
        ((complete_transition s.current_state s.config (countdown_after_mark s)).1 =
            TimerState.Work
          ∧ s.config.auto_start_pomodoros = true)) →
      (complete_session now s).2.current_state =
        (complete_transition s.current_state s.config (countdown_after_mark s)).1
      ∧ (∃ sess, (complete_session now s).2.current_session = some sess
          ∧ sess.session_type =
              (complete_transition s.current_state s.config (countdown_after_mark s)).1
          ∧ sess.completed = false
          ∧ sess.end_time = none)
      ∧ (complete_session now s).2.start_time = some now
      ∧ (complete_session now s).2.paused_duration = 0)
    ∧ (¬(s.config.auto_start_breaks = true ∨
        ((complete_transition s.current_state s.config (countdown_after_mark s)).1 =
            TimerState.Work
          ∧ s.config.auto_start_pomodoros = true)) →
      (complete_session now s).2.current_state = TimerState.Idle
      ∧ (complete_session now s).2.current_session = none
      ∧ (complete_session now s).2.start_time = none) := by
  constructor
  · intro hgate
    simp [complete_session, hgate]
  · intro hgate
    simp [complete_session, hgate]

/-- Witness for C6: with `auto_start_breaks` on, completing a Work session enters the
break immediately; with the default flags it goes to `Idle`. -/
theorem c6_auto_transition_witness :
    (complete_session 5 (runOps timer_manager_new
      [TimerOp.opSetConfig 0 { timer_config_default with auto_start_breaks := true },
       TimerOp.opStart 1])).2.current_state = TimerState.ShortBreak
    ∧ (complete_session 5 (runOps timer_manager_new
        [TimerOp.opSetConfig 0 { timer_config_default with auto_start_breaks := true },
         TimerOp.opStart 1])).2.start_time = some 5
    ∧ (complete_session 9 (runOps timer_manager_new [TimerOp.opStart 0])).2.current_state =
      TimerState.Idle
    ∧ (complete_session 9 (runOps timer_manager_new [TimerOp.opStart 0])).2.current_session =
      none :=
  have hA := (c6_auto_transition 5 (runOps timer_manager_new
    [TimerOp.opSetConfig 0 { timer_config_default with auto_start_breaks := true },
     TimerOp.opStart 1]) (by decide)).1 (Or.inl (by decide))
  have hB := (c6_auto_transition 9 (runOps timer_manager_new [TimerOp.opStart 0])
    (by decide)).2 (by decide)
  ⟨hA.1.trans (by decide), hA.2.2.1, hB.1, hB.2.1⟩

/-- Claim C7: `start` succeeds exactly from `Idle` or `Paused`, `pause` succeeds exactly
from `Work`/`ShortBreak`/`LongBreak` (and then yields `Paused`); a failing call returns
the illegal-transition error with the state untouched; and `start` from `Idle` yields
`Work` with a fresh not-completed session (no end timestamp) and zero accumulated
pause. -/
theorem c7_start_pause_legality (now : Nat) (s : TimerManagerState) :
    (result_is_ok (start_timer now s).1 = true ↔
      (s.current_state = TimerState.Idle ∨ s.current_state = TimerState.Paused))
    ∧ (¬(s.current_state = TimerState.Idle ∨ s.current_state = TimerState.Paused) →
        start_timer now s = (Except.error start_error_msg, s))
    ∧ (result_is_ok (pause_timer now s).1 = true ↔
      (s.current_state = TimerState.Work ∨ s.current_state = TimerState.ShortBreak
        ∨ s.current_state = TimerState.LongBreak))
    ∧ ((s.current_state = TimerState.Work ∨ s.current_state = TimerState.ShortBreak
        ∨ s.current_state = TimerState.LongBreak) →
        (pause_timer now s).2.current_state = TimerState.Paused)
    ∧ (¬(s.current_state = TimerState.Work ∨ s.current_state = TimerState.ShortBreak
        ∨ s.current_state = TimerState.LongBreak) →
        pause_timer now s = (Except.error pause_error_msg, s))
    ∧ (s.current_state = TimerState.Idle →
        (start_timer now s).2.current_state = TimerState.Work
        ∧ (∃ sess, (start_timer now s).2.current_session = some sess
            ∧ sess.session_type = TimerState.Work
            ∧ sess.completed = false
            ∧ sess.end_time = none)
        ∧ (start_timer now s).2.paused_duration = 0
        ∧ (start_timer now s).2.start_time = some now) := by
  rcases hcs : s.current_state <;>
    simp [start_timer, pause_timer, result_is_ok, hcs]

/-- Witness for C7: from the initial `Idle` state, `start` succeeds and yields a fresh
Work phase while `pause` fails without touching the state. -/
theorem c7_start_pause_legality_witness :
    result_is_ok (start_timer 5 timer_manager_new).1 = true
    ∧ pause_timer 5 timer_manager_new = (Except.error pause_error_msg, timer_manager_new)
    ∧ (start_timer 5 timer_manager_new).2.current_state = TimerState.Work
    ∧ (start_timer 5 timer_manager_new).2.start_time = some 5 :=
  have h := c7_start_pause_legality 5 timer_manager_new
  ⟨h.1.mpr (Or.inl rfl), h.2.2.2.2.1 (by decide),
   (h.2.2.2.2.2 rfl).1, (h.2.2.2.2.2 rfl).2.2.2⟩

/-- Claim C8: `start` from `Paused` adds the elapsed pause interval `now - pause_start`
to the accumulated pause duration, clears `pause_start`, restores the phase to the
paused session field `phase_type` (defaulting to `Work` with no session), and leaves
`phase_start_instant` unchanged — so the elapsed-seconds computation of a later query in a
running phase is `(t - phase_start) - accumulated_pause`, excluding the paused
interval. -/
theorem c8_resume_from_pause (now : Nat) (s : TimerManagerState) (p : Nat)
    (h1 : s.current_state = TimerState.Paused)
    (h2 : s.pause_start = some p) :
    (start_timer now s).2.paused_duration = s.paused_duration + (now - p)
    ∧ (start_timer now s).2.pause_start = none
    ∧ (start_timer now s).2.current_state =
        (match s.current_session with
         | some sess => sess.session_type
         | none => TimerState.Work)
    ∧ (start_timer now s).2.start_time = s.start_time
    ∧ (∀ (t start : Nat), s.start_time = some start →
        (start_timer now s).2.current_state ≠ TimerState.Paused →
        state_elapsed_secs t start (start_timer now s).2 =
          u32Wrap (t - start - (s.paused_duration + (now - p)))) := by
  refine ⟨?_, ?_, ?_, ?_, ?_⟩ <;>
    simp [start_timer, h1, h2, state_elapsed_secs]
  intro t start _ hnp
  simp [hnp]

/-- Witness for C8: resuming at instant 7 a session paused at instant 2. -/
theorem c8_resume_from_pause_witness :
    (start_timer 7 (runOps timer_manager_new
      [TimerOp.opStart 0, TimerOp.opPause 2])).2.paused_duration =
      (runOps timer_manager_new
        [TimerOp.opStart 0, TimerOp.opPause 2]).paused_duration + (7 - 2)
    ∧ (start_timer 7 (runOps timer_manager_new
        [TimerOp.opStart 0, TimerOp.opPause 2])).2.pause_start = none
    ∧ (start_timer 7 (runOps timer_manager_new
        [TimerOp.opStart 0, TimerOp.opPause 2])).2.start_time =
      (runOps timer_manager_new [TimerOp.opStart 0, TimerOp.opPause 2]).start_time :=
  have h := c8_resume_from_pause 7
    (runOps timer_manager_new [TimerOp.opStart 0, TimerOp.opPause 2]) 2
    (by decide) (by decide)
  ⟨h.1, h.2.1, h.2.2.2.1⟩

theorem complete_session_snapshot (now : Nat) (s : TimerManagerState) :
    (complete_session now s).1 = get_timer_data_internal now (complete_session now s).2 := by
  by_cases hgate : s.config.auto_start_breaks = true ∨
      ((complete_transition s.current_state s.config (countdown_after_mark s)).1 =
          TimerState.Work
        ∧ s.config.auto_start_pomodoros = true) <;>
    simp [complete_session, hgate]

/-- Claim C9: `check_if_completed` returns no snapshot and leaves the state unchanged
whenever the phase is `Idle` or `Paused`, or the elapsed seconds fall short of the
configured duration of the running phase; when they reach it, the call performs
exactly `complete_session` — same resulting state — and the returned snapshot is the
one `complete_session` derives from the post-transition state. -/
theorem c9_check_if_completed (now : Nat) (s : TimerManagerState) :
    ((s.current_state = TimerState.Idle ∨ s.current_state = TimerState.Paused) →
      check_if_completed now s = (none, s))
    ∧ (∀ start : Nat, s.start_time = some start →
        (s.current_state = TimerState.Work ∨ s.current_state = TimerState.ShortBreak
          ∨ s.current_state = TimerState.LongBreak) →
        u32Wrap (now - start - s.paused_duration) < phase_duration s →
        check_if_completed now s = (none, s))
    ∧ (∀ start : Nat, s.start_time = some start →
        (s.current_state = TimerState.Work ∨ s.current_state = TimerState.ShortBreak
          ∨ s.current_state = TimerState.LongBreak) →
        phase_duration s ≤ u32Wrap (now - start - s.paused_duration) →
        check_if_completed now s =
          (some (complete_session now s).1, (complete_session now s).2)
        ∧ (complete_session now s).1 =
            get_timer_data_internal now (complete_session now s).2) := by
  refine ⟨?_, ?_, ?_⟩
  · intro h
    rcases hst : s.start_time with _ | start
    · simp [check_if_completed, hst]
    · rcases h with h | h <;> simp [check_if_completed, hst, h]
  · intro start hst hrun hlt
    rcases hrun with h | h | h <;>
      simp [check_if_completed, hst, h, Nat.not_le_of_lt hlt, phase_duration] at hlt ⊢ <;>
        simpa [phase_duration, h] using hlt
  · intro start hst hrun hge
    refine ⟨?_, complete_session_snapshot now s⟩
    rcases hrun with h | h | h <;>
      simp [check_if_completed, hst, h, phase_duration] at hge ⊢ <;>
        simpa [phase_duration, h] using hge

/-- Witness for C9: polling a fresh Work session (default duration 1500 s) at 10 s
leaves everything untouched; polling at 1500 s completes it. -/
theorem c9_check_if_completed_witness :
    check_if_completed 3 timer_manager_new = (none, timer_manager_new)
    ∧ check_if_completed 10 (runOps timer_manager_new [TimerOp.opStart 0]) =
      (none, runOps timer_manager_new [TimerOp.opStart 0])
    ∧ check_if_completed 1500 (runOps timer_manager_new [TimerOp.opStart 0]) =
      (some (complete_session 1500 (runOps timer_manager_new [TimerOp.opStart 0])).1,
        (complete_session 1500 (runOps timer_manager_new [TimerOp.opStart 0])).2) :=
  ⟨(c9_check_if_completed 3 timer_manager_new).1 (Or.inl rfl),
   (c9_check_if_completed 10 (runOps timer_manager_new [TimerOp.opStart 0])).2.1 0
     (by decide) (Or.inl (by decide)) (by decide),
   ((c9_check_if_completed 1500 (runOps timer_manager_new [TimerOp.opStart 0])).2.2 0
     (by decide) (Or.inl (by decide)) (by decide)).1⟩

/-- Claim C10: `update_config` installs the caller-supplied config verbatim — no
validation, so configs with zero durations or a zero cycle length are accepted — and
sets the countdown to the supplied cycle length, leaving every other field unchanged;
with the configured duration of the active phase at 0 every subsequent query returns
`remaining_time = 0` and `progress = 1.0`, and the progress division is only ever
evaluated under `elapsed < duration`, which forces `duration > 0`. -/
theorem c10_update_config (now t : Nat) (config : TimerConfig) (s : TimerManagerState) :
    (update_config now config s).2.config = config
    ∧ (update_config now config s).2.sessions_until_long_break =
        config.sessions_until_long_break
    ∧ (update_config now config s).2.current_state = s.current_state
    ∧ (update_config now config s).2.start_time = s.start_time
    ∧ (update_config now config s).2.pause_start = s.pause_start
    ∧ (update_config now config s).2.paused_duration = s.paused_duration
    ∧ (update_config now config s).2.current_session = s.current_session
    ∧ (update_config now config s).2.completed_sessions = s.completed_sessions
    ∧ (∀ start : Nat, (update_config now config s).2.start_time = some start →
        phase_duration (update_config now config s).2 = 0 →
        (get_timer_data_internal t (update_config now config s).2).remaining_time = 0
        ∧ (get_timer_data_internal t (update_config now config s).2).progress = 1)
    ∧ (∀ (u : TimerManagerState) (start : Nat), u.start_time = some start →
        state_elapsed_secs t start u < phase_duration u → 0 < phase_duration u) := by
  refine ⟨rfl, rfl, rfl, rfl, rfl, rfl, rfl, rfl, ?_, ?_⟩
  · intro start hst hdur
    constructor <;> simp [get_timer_data_internal, hst, hdur]
  · intro u start _ hlt
    exact Nat.lt_of_le_of_lt (Nat.zero_le _) hlt

/-- Witness for C10: installing the all-zero config (which violates the config
invariant) over a running Work session; the running phase then has configured
duration 0 and the query at instant 5 reports remaining 0 and progress 1. -/
theorem c10_update_config_witness :
    (update_config 3
      { work_duration := 0, short_break_duration := 0, long_break_duration := 0,
        sessions_until_long_break := 0, auto_start_breaks := false,
        auto_start_pomodoros := false }
      (runOps timer_manager_new [TimerOp.opStart 0])).2.config =
      { work_duration := 0, short_break_duration := 0, long_break_duration := 0,
        sessions_until_long_break := 0, auto_start_breaks := false,
        auto_start_pomodoros := false }
    ∧ (update_config 3
        { work_duration := 0, short_break_duration := 0, long_break_duration := 0,
          sessions_until_long_break := 0, auto_start_breaks := false,
          auto_start_pomodoros := false }
        (runOps timer_manager_new [TimerOp.opStart 0])).2.sessions_until_long_break = 0
    ∧ (get_timer_data_internal 5 (update_config 3
        { work_duration := 0, short_break_duration := 0, long_break_duration := 0,
          sessions_until_long_break := 0, auto_start_breaks := false,
          auto_start_pomodoros := false }
        (runOps timer_manager_new [TimerOp.opStart 0])).2).remaining_time = 0
    ∧ (get_timer_data_internal 5 (update_config 3
        { work_duration := 0, short_break_duration := 0, long_break_duration := 0,
          sessions_until_long_break := 0, auto_start_breaks := false,
          auto_start_pomodoros := false }
        (runOps timer_manager_new [TimerOp.opStart 0])).2).progress = 1 :=
  have h := c10_update_config 3 5
    { work_duration := 0, short_break_duration := 0, long_break_duration := 0,
      sessions_until_long_break := 0, auto_start_breaks := false,
      auto_start_pomodoros := false }
    (runOps timer_manager_new [TimerOp.opStart 0])
  have h9 := h.2.2.2.2.2.2.2.2.1 0 (by decide) (by decide)
  ⟨h.1, h.2.1, h9.1, h9.2⟩

end TempusRing


